import Mathlib

set_option maxRecDepth 100000

/-!
Verification of the binance-mcp adapter (src/src/binance-api.ts and
src/src/index.ts) against its natural-language specification.

The development shallowly embeds the request-building, signing,
response-reshaping, dispatch and startup logic of the adapter.  Bytes are
naturals below 256, machine words are naturals reduced modulo 2^32, parameter
mappings are insertion-ordered association lists, and the external crypto-js
call `HmacSHA256(msg, key).toString()` is embedded as a full HMAC-SHA-256 over
UTF-8 bytes with lowercase hexadecimal output, which is what that library call
computes.
-/

namespace Crypto

/-- 2^32, the word modulus of SHA-256 arithmetic. -/
def M32 : Nat := 4294967296

/-- Addition of 32-bit words. -/
def add32 (a b : Nat) : Nat := (a + b) % M32

/-- Right rotation of a 32-bit word by `n` bits. -/
def rotr (n a : Nat) : Nat := ((a >>> n) ||| (a <<< (32 - n))) % M32

/-- Bitwise complement of a 32-bit word. -/
def not32 (a : Nat) : Nat := a ^^^ 4294967295

/-- SHA-256 big sigma 0. -/
def bsig0 (x : Nat) : Nat := (rotr 2 x) ^^^ (rotr 13 x) ^^^ (rotr 22 x)

/-- SHA-256 big sigma 1. -/
def bsig1 (x : Nat) : Nat := (rotr 6 x) ^^^ (rotr 11 x) ^^^ (rotr 25 x)

/-- SHA-256 small sigma 0. -/
def ssig0 (x : Nat) : Nat := (rotr 7 x) ^^^ (rotr 18 x) ^^^ (x >>> 3)

/-- SHA-256 small sigma 1. -/
def ssig1 (x : Nat) : Nat := (rotr 17 x) ^^^ (rotr 19 x) ^^^ (x >>> 10)

/-- SHA-256 choose function. -/
def ch (x y z : Nat) : Nat := (x &&& y) ^^^ (not32 x &&& z)

/-- SHA-256 majority function. -/
def maj (x y z : Nat) : Nat := (x &&& y) ^^^ (x &&& z) ^^^ (y &&& z)

/-- The eight-word SHA-256 chaining state. -/
structure Hash8 where
  a : Nat
  b : Nat
  c : Nat
  d : Nat
  e : Nat
  f : Nat
  g : Nat
  h : Nat
deriving DecidableEq, Repr

/-- SHA-256 initial hash value. -/
def initH : Hash8 :=
  ⟨1779033703, 3144134277, 1013904242, 2773480762,
   1359893119, 2600822924, 528734635, 1541459225⟩

/-- SHA-256 round constants. -/
def K : List Nat :=
  [1116352408, 1899447441, 3049323471, 3921009573,
   961987163, 1508970993, 2453635748, 2870763221,
   3624381080, 310598401, 607225278, 1426881987,
   1925078388, 2162078206, 2614888103, 3248222580,
   3835390401, 4022224774, 264347078, 604807628,
   770255983, 1249150122, 1555081692, 1996064986,
   2554220882, 2821834349, 2952996808, 3210313671,
   3336571891, 3584528711, 113926993, 338241895,
   666307205, 773529912, 1294757372, 1396182291,
   1695183700, 1986661051, 2177026350, 2456956037,
   2730485921, 2820302411, 3259730800, 3345764771,
   3516065817, 3600352804, 4094571909, 275423344,
   430227734, 506948616, 659060556, 883997877,
   958139571, 1322822218, 1537002063, 1747873779,
   1955562222, 2024104815, 2227730452, 2361852424,
   2428436474, 2756734187, 3204031479, 3329325298]

/-- Extend the message schedule; `ws` holds the words produced so far, most
recent first, and `fuel` counts the words still to produce. -/
def schedRev (ws : List Nat) : Nat → List Nat
  | 0 => ws
  | fuel + 1 =>
    let w2 := ws.getD 1 0
    let w7 := ws.getD 6 0
    let w15 := ws.getD 14 0
    let w16 := ws.getD 15 0
    let w := (ssig1 w2 + w7 + ssig0 w15 + w16) % M32
    schedRev (w :: ws) fuel

/-- The 64-word message schedule of one 16-word block. -/
def schedule (block : List Nat) : List Nat :=
  (schedRev block.reverse 48).reverse

/-- One SHA-256 round on the working state. -/
def round (st : Hash8) (kw : Nat × Nat) : Hash8 :=
  let t1 := (st.h + bsig1 st.e + ch st.e st.f st.g + kw.1 + kw.2) % M32
  let t2 := (bsig0 st.a + maj st.a st.b st.c) % M32
  ⟨(t1 + t2) % M32, st.a, st.b, st.c, (st.d + t1) % M32, st.e, st.f, st.g⟩

/-- SHA-256 compression of one 16-word block into the chaining state. -/
def compress (h0 : Hash8) (block : List Nat) : Hash8 :=
  let st := (K.zip (schedule block)).foldl round h0
  ⟨add32 h0.a st.a, add32 h0.b st.b, add32 h0.c st.c, add32 h0.d st.d,
   add32 h0.e st.e, add32 h0.f st.f, add32 h0.g st.g, add32 h0.h st.h⟩

/-- Big-endian 8-byte encoding (for the length field of the padding). -/
def be8 (n : Nat) : List Nat :=
  [(n >>> 56) % 256, (n >>> 48) % 256, (n >>> 40) % 256, (n >>> 32) % 256,
   (n >>> 24) % 256, (n >>> 16) % 256, (n >>> 8) % 256, n % 256]

/-- SHA-256 padding: append 0x80, zeros to 56 mod 64, then the bit length. -/
def padBytes (msg : List Nat) : List Nat :=
  let len := msg.length
  let k := (119 - len % 64) % 64
  msg ++ 128 :: List.replicate k 0 ++ be8 (8 * len)

/-- Group bytes into big-endian 32-bit words. -/
def wordsOfBytes : List Nat → List Nat
  | b0 :: b1 :: b2 :: b3 :: rest =>
      (((b0 * 256 + b1) * 256 + b2) * 256 + b3) :: wordsOfBytes rest
  | _ => []

/-- Split a word list into 16-word blocks; `fuel` bounds the recursion. -/
def chunks16 (fuel : Nat) (ws : List Nat) : List (List Nat) :=
  match fuel with
  | 0 => []
  | f + 1 =>
    match ws with
    | [] => []
    | _ => ws.take 16 :: chunks16 f (ws.drop 16)

/-- The SHA-256 chaining state after absorbing a byte message. -/
def sha256State (msg : List Nat) : Hash8 :=
  let ws := wordsOfBytes (padBytes msg)
  (chunks16 ws.length ws).foldl compress initH

/-- Big-endian byte decomposition of a 32-bit word. -/
def wordBytesBE (w : Nat) : List Nat :=
  [(w / 16777216) % 256, (w / 65536) % 256, (w / 256) % 256, w % 256]

/-- The 32 digest bytes of a chaining state, big-endian word by word. -/
def digestBytes (h : Hash8) : List Nat :=
  wordBytesBE h.a ++ wordBytesBE h.b ++ wordBytesBE h.c ++ wordBytesBE h.d ++
  wordBytesBE h.e ++ wordBytesBE h.f ++ wordBytesBE h.g ++ wordBytesBE h.h

/-- SHA-256 of a byte message, as its 32 digest bytes. -/
def sha256 (msg : List Nat) : List Nat :=
  digestBytes (sha256State msg)

/-- HMAC-SHA-256 of a byte message under a byte key, as its 32 digest bytes. -/
def hmacSha256 (key msg : List Nat) : List Nat :=
  let k0 := if 64 < key.length then sha256 key else key
  let k64 := k0 ++ List.replicate (64 - k0.length) 0
  let ipadKey := k64.map (fun b => b ^^^ 54)
  let opadKey := k64.map (fun b => b ^^^ 92)
  sha256 (opadKey ++ sha256 (ipadKey ++ msg))

/-- The lowercase hexadecimal digit for `n < 16`. -/
def hexDigitChar (n : Nat) : Char :=
  if n < 10 then Char.ofNat (48 + n) else Char.ofNat (87 + n)

/-- Two lowercase hex characters for one byte. -/
def byteHex (b : Nat) : List Char :=
  [hexDigitChar (b / 16), hexDigitChar (b % 16)]

/-- Lowercase hexadecimal rendering of a byte list. -/
def bytesHex (bs : List Nat) : String :=
  String.mk (bs.foldr (fun b acc => byteHex b ++ acc) [])

/-- UTF-8 encoding of one character. -/
def utf8Bytes (c : Char) : List Nat :=
  let n := c.toNat
  if n < 128 then [n]
  else if n < 2048 then [192 + n / 64, 128 + n % 64]
  else if n < 65536 then [224 + n / 4096, 128 + (n / 64) % 64, 128 + n % 64]
  else [240 + n / 262144, 128 + (n / 4096) % 64, 128 + (n / 64) % 64, 128 + n % 64]

/-- UTF-8 bytes of a string. -/
def strBytes (s : String) : List Nat :=
  s.data.foldr (fun c acc => utf8Bytes c ++ acc) []

/-- `crypto.HmacSHA256(msg, key).toString()`: lowercase hex HMAC-SHA-256. -/
def hmacSha256Hex (key msg : String) : String :=
  bytesHex (hmacSha256 (strBytes key) (strBytes msg))

end Crypto

/-- SHA-256 known-answer check: the empty message. -/
theorem sha256_empty :
    Crypto.bytesHex (Crypto.sha256 []) =
      "e3b0c44298fc1c149afbf4c8996fb92427ae41e4649b934ca495991b7852b855" := by
  decide

/-- SHA-256 known-answer check: the three-byte message "abc". -/
theorem sha256_abc :
    Crypto.bytesHex (Crypto.sha256 (Crypto.strBytes "abc")) =
      "ba7816bf8f01cfea414140de5dae2223b00361a396177a9cb410ff61f20015ad" := by
  decide

/-- HMAC-SHA-256 known-answer check (RFC 4231 test case 2). -/
theorem hmac_rfc4231_case2 :
    Crypto.hmacSha256Hex "Jefe" "what do ya want for nothing?" =
      "5bdcc146bf60754e6a042426089575c75a003f089d2739839dec58b964ec3843" := by
  decide

/-!
Parameter mappings.  A request parameter mapping in the source is a JS object
whose keys are fixed non-numeric identifiers; `Object.keys` therefore returns
them in insertion order, so the mapping is embedded as an insertion-ordered
association list.  Values in the source are strings or numbers; the template
literal `${params[key]}` renders a number by its decimal representation.
-/

/-- A scalar parameter value: a string or a number. -/
inductive PVal where
  | s (v : String)
  | n (v : Int)
deriving DecidableEq, Repr

/-- JS string interpolation of a parameter value. -/
def PVal.render : PVal → String
  | .s v => v
  | .n v => toString v

/-- An insertion-ordered request parameter mapping. -/
abbrev Params := List (String × PVal)

/-- The keys of a parameter mapping, in insertion order. -/
def keysOf (ps : Params) : List String := ps.map Prod.fst

/-- `Object.keys(params).map(key => `key=value`).join('&')` of
`generateSignature` (src/src/binance-api.ts:674-676). -/
def queryString (ps : Params) : String :=
  String.intercalate "&" (ps.map fun p => p.1 ++ "=" ++ p.2.render)

/-- JS truthiness test `if (v) params.k = v` for an optional number: `none`
embeds `undefined`, and `0` is falsy. -/
def optNum (k : String) (v : Option Int) : Params :=
  match v with
  | some n => if n = 0 then [] else [(k, PVal.n n)]
  | none => []

/-- JS truthiness test `if (v) params.k = v` for an optional string: `none`
embeds `undefined`, and the empty string is falsy. -/
def optStr (k : String) (v : Option String) : Params :=
  match v with
  | some s => if s = "" then [] else [(k, PVal.s s)]
  | none => []

/-- The test `if (v !== undefined) params.k = v` used for `status`. -/
def optNumDefined (k : String) (v : Option Int) : Params :=
  match v with
  | some n => [(k, PVal.n n)]
  | none => []

/-- HTTP verbs used by the client. -/
inductive HttpMethod where
  | get
  | post
  | delete
deriving DecidableEq, Repr

/-- One outbound HTTP request: verb, path under the fixed base URL, headers,
and query parameters. -/
structure Request where
  verb : HttpMethod
  path : String
  headers : List (String × String)
  params : Params
deriving DecidableEq, Repr

namespace BinanceAPI

/-- The fields of the first `BinanceAPI` class that request building reads:
the credentials (src/src/binance-api.ts:175-184). -/
structure Client where
  apiKey : String
  apiSecret : String
deriving DecidableEq, Repr

/-- The headers installed by `axios.create` in the constructor
(src/src/binance-api.ts:178-183). -/
def headersOf (c : Client) : List (String × String) :=
  [("X-MBX-APIKEY", c.apiKey)]

/-- `generateSignature` (src/src/binance-api.ts:673-679): hex HMAC-SHA-256 of
the joined query string under the secret key. -/
def generateSignature (apiSecret : String) (ps : Params) : String :=
  Crypto.hmacSha256Hex apiSecret (queryString ps)

/-- The parameter spread `{ ...params, signature }` sent by every signed
method: the signed mapping followed by the computed signature. -/
def withSignature (c : Client) (ps : Params) : Params :=
  ps ++ [("signature", PVal.s (generateSignature c.apiSecret ps))]

/-- Parameters of `getPrice` (src/src/binance-api.ts:193-202):
`symbol ? { symbol } : {}`. -/
def getPriceParams (symbol : Option String) : Params :=
  optStr "symbol" symbol

/-- The one request issued by `getPrice`. -/
def getPriceRequests (c : Client) (symbol : Option String) : List Request :=
  [⟨.get, "/api/v3/ticker/price", headersOf c, getPriceParams symbol⟩]

/-- Parameters of `get24hrTicker` (src/src/binance-api.ts:209-218). -/
def get24hrTickerParams (symbol : Option String) : Params :=
  optStr "symbol" symbol

/-- The one request issued by `get24hrTicker`. -/
def get24hrTickerRequests (c : Client) (symbol : Option String) : List Request :=
  [⟨.get, "/api/v3/ticker/24hr", headersOf c, get24hrTickerParams symbol⟩]

/-- Parameters of `getKlines` (src/src/binance-api.ts:236-240): `symbol` and
`interval` always, then `limit`, `startTime`, `endTime` under truthiness. -/
def getKlinesParams (symbol interval : String)
    (limit startTime endTime : Option Int) : Params :=
  [("symbol", PVal.s symbol), ("interval", PVal.s interval)] ++
    optNum "limit" limit ++ optNum "startTime" startTime ++
    optNum "endTime" endTime

/-- The one request issued by `getKlines`. -/
def getKlinesRequests (c : Client) (symbol interval : String)
    (limit startTime endTime : Option Int) : List Request :=
  [⟨.get, "/api/v3/klines", headersOf c,
    getKlinesParams symbol interval limit startTime endTime⟩]

/-- Parameters of `getOrderBook` (src/src/binance-api.ts:272-273). -/
def getOrderBookParams (symbol : String) (limit : Option Int) : Params :=
  [("symbol", PVal.s symbol)] ++ optNum "limit" limit

/-- The one request issued by `getOrderBook`. -/
def getOrderBookRequests (c : Client) (symbol : String)
    (limit : Option Int) : List Request :=
  [⟨.get, "/api/v3/depth", headersOf c, getOrderBookParams symbol limit⟩]

/-- Parameters of `getRecentTrades` (src/src/binance-api.ts:303-304). -/
def getRecentTradesParams (symbol : String) (limit : Option Int) : Params :=
  [("symbol", PVal.s symbol)] ++ optNum "limit" limit

/-- The one request issued by `getRecentTrades`. -/
def getRecentTradesRequests (c : Client) (symbol : String)
    (limit : Option Int) : List Request :=
  [⟨.get, "/api/v3/trades", headersOf c, getRecentTradesParams symbol limit⟩]

/-- Signed parameters of `getAccountInfo` (src/src/binance-api.ts:322-323):
just the injected timestamp. -/
def getAccountInfoParams (ts : Int) : Params :=
  [("timestamp", PVal.n ts)]

/-- The one request issued by `getAccountInfo`. -/
def getAccountInfoRequests (c : Client) (ts : Int) : List Request :=
  [⟨.get, "/api/v3/account", headersOf c,
    withSignature c (getAccountInfoParams ts)⟩]

/-- Signed parameters of `getMyTrades` (src/src/binance-api.ts:344-348):
`{ ...params, timestamp }`, the caller mapping followed by the timestamp. -/
def getMyTradesParams (input : Params) (ts : Int) : Params :=
  input ++ [("timestamp", PVal.n ts)]

/-- The one request issued by `getMyTrades`. -/
def getMyTradesRequests (c : Client) (input : Params) (ts : Int) :
    List Request :=
  [⟨.get, "/api/v3/myTrades", headersOf c,
    withSignature c (getMyTradesParams input ts)⟩]

/-- Signed parameters of `getOpenOrders` (src/src/binance-api.ts:370-372):
the object is created as `{ timestamp }` and `symbol` is added after it. -/
def getOpenOrdersParams (symbol : Option String) (ts : Int) : Params :=
  [("timestamp", PVal.n ts)] ++ optStr "symbol" symbol

/-- The one request issued by `getOpenOrders`. -/
def getOpenOrdersRequests (c : Client) (symbol : Option String) (ts : Int) :
    List Request :=
  [⟨.get, "/api/v3/openOrders", headersOf c,
    withSignature c (getOpenOrdersParams symbol ts)⟩]

/-- Signed parameters of `getAllOrders` (src/src/binance-api.ts:404-410): the
object is created as `{ symbol, timestamp }` and the optional keys `orderId`,
`startTime`, `endTime`, `limit` are added after `timestamp`. -/
def getAllOrdersParams (symbol : String)
    (orderId startTime endTime limit : Option Int) (ts : Int) : Params :=
  [("symbol", PVal.s symbol), ("timestamp", PVal.n ts)] ++
    optNum "orderId" orderId ++ optNum "startTime" startTime ++
    optNum "endTime" endTime ++ optNum "limit" limit

/-- The one request issued by `getAllOrders`. -/
def getAllOrdersRequests (c : Client) (symbol : String)
    (orderId startTime endTime limit : Option Int) (ts : Int) : List Request :=
  [⟨.get, "/api/v3/allOrders", headersOf c,
    withSignature c (getAllOrdersParams symbol orderId startTime endTime limit ts)⟩]

/-- Signed parameters of `placeOrder` (src/src/binance-api.ts:434-438):
`{ ...orderParams, timestamp }`. -/
def placeOrderParams (input : Params) (ts : Int) : Params :=
  input ++ [("timestamp", PVal.n ts)]

/-- The one request issued by `placeOrder` (a POST). -/
def placeOrderRequests (c : Client) (input : Params) (ts : Int) :
    List Request :=
  [⟨.post, "/api/v3/order", headersOf c,
    withSignature c (placeOrderParams input ts)⟩]

/-- Signed parameters of `cancelOrder` (src/src/binance-api.ts:460-464). -/
def cancelOrderParams (input : Params) (ts : Int) : Params :=
  input ++ [("timestamp", PVal.n ts)]

/-- The one request issued by `cancelOrder` (a DELETE). -/
def cancelOrderRequests (c : Client) (input : Params) (ts : Int) :
    List Request :=
  [⟨.delete, "/api/v3/order", headersOf c,
    withSignature c (cancelOrderParams input ts)⟩]

/-- Signed parameters of `cancelAllOrders` (src/src/binance-api.ts:486-487). -/
def cancelAllOrdersParams (symbol : String) (ts : Int) : Params :=
  [("symbol", PVal.s symbol), ("timestamp", PVal.n ts)]

/-- The one request issued by `cancelAllOrders` (a DELETE). -/
def cancelAllOrdersRequests (c : Client) (symbol : String) (ts : Int) :
    List Request :=
  [⟨.delete, "/api/v3/openOrders", headersOf c,
    withSignature c (cancelAllOrdersParams symbol ts)⟩]

/-- Signed parameters of `getOrder` (src/src/binance-api.ts:511-515): the
object is created as `{ symbol, timestamp }` and `orderId`, `clientOrderId`
are added after `timestamp`. -/
def getOrderParams (symbol : String) (orderId : Option Int)
    (clientOrderId : Option String) (ts : Int) : Params :=
  [("symbol", PVal.s symbol), ("timestamp", PVal.n ts)] ++
    optNum "orderId" orderId ++ optStr "clientOrderId" clientOrderId

/-- The one request issued by `getOrder`. -/
def getOrderRequests (c : Client) (symbol : String) (orderId : Option Int)
    (clientOrderId : Option String) (ts : Int) : List Request :=
  [⟨.get, "/api/v3/order", headersOf c,
    withSignature c (getOrderParams symbol orderId clientOrderId ts)⟩]

/-- Signed parameters of `getDepositAddress` (src/src/binance-api.ts:539-543). -/
def getDepositAddressParams (input : Params) (ts : Int) : Params :=
  input ++ [("timestamp", PVal.n ts)]

/-- The one request issued by `getDepositAddress`. -/
def getDepositAddressRequests (c : Client) (input : Params) (ts : Int) :
    List Request :=
  [⟨.get, "/sapi/v1/capital/deposit/address", headersOf c,
    withSignature c (getDepositAddressParams input ts)⟩]

/-- Signed parameters of `getDepositHistory` (src/src/binance-api.ts:577-585):
the object is created as `{ timestamp }`; `coin` is added under truthiness,
`status` under `!== undefined`, and `startTime`, `endTime`, `offset`, `limit`
under truthiness, all after `timestamp`. -/
def getDepositHistoryParams (coin : Option String) (status : Option Int)
    (startTime endTime offset limit : Option Int) (ts : Int) : Params :=
  [("timestamp", PVal.n ts)] ++ optStr "coin" coin ++
    optNumDefined "status" status ++ optNum "startTime" startTime ++
    optNum "endTime" endTime ++ optNum "offset" offset ++ optNum "limit" limit

/-- The one request issued by `getDepositHistory`. -/
def getDepositHistoryRequests (c : Client) (coin : Option String)
    (status : Option Int) (startTime endTime offset limit : Option Int)
    (ts : Int) : List Request :=
  [⟨.get, "/sapi/v1/capital/deposit/hisrec", headersOf c,
    withSignature c
      (getDepositHistoryParams coin status startTime endTime offset limit ts)⟩]

/-- Signed parameters of `getWithdrawHistory`
(src/src/binance-api.ts:619-627), built exactly like the deposit history. -/
def getWithdrawHistoryParams (coin : Option String) (status : Option Int)
    (startTime endTime offset limit : Option Int) (ts : Int) : Params :=
  [("timestamp", PVal.n ts)] ++ optStr "coin" coin ++
    optNumDefined "status" status ++ optNum "startTime" startTime ++
    optNum "endTime" endTime ++ optNum "offset" offset ++ optNum "limit" limit

/-- The one request issued by `getWithdrawHistory`. -/
def getWithdrawHistoryRequests (c : Client) (coin : Option String)
    (status : Option Int) (startTime endTime offset limit : Option Int)
    (ts : Int) : List Request :=
  [⟨.get, "/sapi/v1/capital/withdraw/history", headersOf c,
    withSignature c
      (getWithdrawHistoryParams coin status startTime endTime offset limit ts)⟩]

/-- Signed parameters of `withdraw` (src/src/binance-api.ts:649-653). -/
def withdrawParams (input : Params) (ts : Int) : Params :=
  input ++ [("timestamp", PVal.n ts)]

/-- The one request issued by `withdraw` (a POST). -/
def withdrawRequests (c : Client) (input : Params) (ts : Int) :
    List Request :=
  [⟨.post, "/sapi/v1/capital/withdraw/apply", headersOf c,
    withSignature c (withdrawParams input ts)⟩]

end BinanceAPI

/-!
Response reshaping.  The kline endpoint returns a JSON array of positional
arrays; `getKlines` re-maps positions 0..10 into a named record
(src/src/binance-api.ts:245-257).  Indexing a JS array out of range yields
`undefined`, embedded by a dedicated constructor.
-/

/-- A decoded JSON scalar as it appears in kline arrays, with `undef` for
out-of-range indexing. -/
inductive JVal where
  | num (v : Int)
  | str (v : String)
  | undef
deriving DecidableEq, Repr

/-- JS indexing `a[i]` on a decoded array: `undefined` when out of range. -/
def jIdx (l : List JVal) (i : Nat) : JVal :=
  l.getD i JVal.undef

namespace BinanceAPI

/-- The named candlestick record built by `getKlines`
(src/src/binance-api.ts:39-51 and 245-257). -/
structure KlineData where
  openTime : JVal
  «open» : JVal
  high : JVal
  low : JVal
  close : JVal
  volume : JVal
  closeTime : JVal
  quoteAssetVolume : JVal
  numberOfTrades : JVal
  takerBuyBaseAssetVolume : JVal
  takerBuyQuoteAssetVolume : JVal
deriving DecidableEq, Repr

/-- The per-element reshaping of `getKlines` (src/src/binance-api.ts:245-257):
positions 0 through 10 of one positional kline array. -/
def transformKline (k : List JVal) : KlineData :=
  ⟨jIdx k 0, jIdx k 1, jIdx k 2, jIdx k 3, jIdx k 4, jIdx k 5,
   jIdx k 6, jIdx k 7, jIdx k 8, jIdx k 9, jIdx k 10⟩

/-- `response.data.map(kline => ...)` of `getKlines`. -/
def getKlinesResult (resp : List (List JVal)) : List KlineData :=
  resp.map transformKline

/-- The decoded order-book response body (src/src/binance-api.ts:278-288):
`lastUpdateId` and positional `[price, quantity]` string pairs. -/
structure OrderBookRaw where
  lastUpdateId : Int
  bids : List (List String)
  asks : List (List String)
deriving DecidableEq, Repr

/-- One reshaped order-book level: `{ price: e[0], quantity: e[1] }`, where
indexing a too-short array gives `undefined`, embedded as `none`. -/
structure OrderBookEntry where
  price : Option String
  quantity : Option String
deriving DecidableEq, Repr

/-- The reshaped order book returned by `getOrderBook`. -/
structure OrderBook where
  lastUpdateId : Int
  bids : List OrderBookEntry
  asks : List OrderBookEntry
deriving DecidableEq, Repr

/-- The per-level reshaping of `getOrderBook`. -/
def transformLevel (e : List String) : OrderBookEntry :=
  ⟨e.get? 0, e.get? 1⟩

/-- The response reshaping of `getOrderBook` (src/src/binance-api.ts:278-288). -/
def transformOrderBook (r : OrderBookRaw) : OrderBook :=
  ⟨r.lastUpdateId, r.bids.map transformLevel, r.asks.map transformLevel⟩

end BinanceAPI

/-!
Startup (src/src/index.ts:13-23, 29-52).  The two environment variables are
read; `if (!API_KEY || !API_SECRET) throw` rejects an unset variable
(`undefined`, embedded `none`) and an empty string, both falsy.  Only after
the check does the server constructor build the `BinanceAPI` client; neither
the check nor the constructors issue any HTTP request.
-/

namespace Startup

/-- JS falsiness of an optional environment string: unset or empty. -/
def envFalsy : Option String → Bool
  | none => true
  | some s => s == ""

/-- The state reached by a successful startup: the constructed client and the
list of HTTP requests issued on the way (none are). -/
structure ServerInit where
  client : BinanceAPI.Client
  startupRequests : List Request
deriving DecidableEq, Repr

/-- The startup sequence of src/src/index.ts: the credential check at lines
13-18, then construction of the server and its `BinanceAPI` client. -/
def startServer (apiKeyEnv apiSecretEnv : Option String) :
    Except String ServerInit :=
  if envFalsy apiKeyEnv || envFalsy apiSecretEnv then
    .error "BINANCE_API_KEY and BINANCE_API_SECRET environment variables are required"
  else
    .ok ⟨⟨apiKeyEnv.getD "", apiSecretEnv.getD ""⟩, []⟩

end Startup

/-!
Dispatch (src/src/index.ts:480-788).  The call-tool handler switches on the
tool name; each known case invokes one client method and wraps its result as
a single text content item; the default case throws
`McpError(MethodNotFound, Unknown tool: name)`.  The surrounding try/catch
converts every thrown error into `{ content: [text: Error: message],
isError: true }`, with the fallback message `Unknown error` when the thrown
message is falsy.  The client is embedded behaviourally: each tool is a
function from the caller argument mapping to either an error message or a
response payload.
-/

namespace Dispatch

/-- The result shape returned to the transport: the single text item and the
error flag (`isError` is absent, hence false, on success). -/
structure ToolResult where
  text : String
  isError : Bool
deriving DecidableEq, Repr

/-- The caller argument mapping of one tool invocation. -/
abbrev Args := List (String × PVal)

/-- One behaviour of the underlying client: for each client method the
dispatcher can call, the outcome of calling it with the caller argument
mapping, `Except` embedding a thrown error by its message and a success by
its JSON-serialized payload. -/
structure ApiBehavior where
  getPrice : Args → Except String String
  get24hrTicker : Args → Except String String
  getKlines : Args → Except String String
  getOrderBook : Args → Except String String
  getRecentTrades : Args → Except String String
  getAccountInfo : Args → Except String String
  getMyTrades : Args → Except String String
  getOpenOrders : Args → Except String String
  getAllOrders : Args → Except String String
  placeOrder : Args → Except String String
  cancelOrder : Args → Except String String
  cancelAllOrders : Args → Except String String
  getOrder : Args → Except String String
  getDepositAddress : Args → Except String String
  getDepositHistory : Args → Except String String
  getWithdrawHistory : Args → Except String String
  withdraw : Args → Except String String

/-- The tool names of the registry, in the order they are declared in
src/src/index.ts (both the listing at lines 55-478 and the switch cases at
lines 482-776 use exactly these names). -/
def toolNames : List String :=
  ["get_price", "get_24hr_ticker", "get_klines", "get_order_book",
   "get_recent_trades", "get_account", "get_my_trades", "get_open_orders",
   "get_all_orders", "place_order", "cancel_order", "cancel_all_orders",
   "get_order", "get_deposit_address", "get_deposit_history",
   "get_withdraw_history", "withdraw"]

/-- The switch of src/src/index.ts:482-776: a known name invokes the matching
client method with the caller arguments; the default throws the MethodNotFound
error with the literal message built at lines 772-775. -/
def dispatchInner (api : ApiBehavior) (name : String) (args : Args) :
    Except String String :=
  if name = "get_price" then api.getPrice args
  else if name = "get_24hr_ticker" then api.get24hrTicker args
  else if name = "get_klines" then api.getKlines args
  else if name = "get_order_book" then api.getOrderBook args
  else if name = "get_recent_trades" then api.getRecentTrades args
  else if name = "get_account" then api.getAccountInfo args
  else if name = "get_my_trades" then api.getMyTrades args
  else if name = "get_open_orders" then api.getOpenOrders args
  else if name = "get_all_orders" then api.getAllOrders args
  else if name = "place_order" then api.placeOrder args
  else if name = "cancel_order" then api.cancelOrder args
  else if name = "cancel_all_orders" then api.cancelAllOrders args
  else if name = "get_order" then api.getOrder args
  else if name = "get_deposit_address" then api.getDepositAddress args
  else if name = "get_deposit_history" then api.getDepositHistory args
  else if name = "get_withdraw_history" then api.getWithdrawHistory args
  else if name = "withdraw" then api.withdraw args
  else .error ("Unknown tool: " ++ name)

/-- The message selection `error.message || 'Unknown error'` at line 782. -/
def errMessage (m : String) : String :=
  if m = "" then "Unknown error" else m

/-- The catch block at src/src/index.ts:777-787. -/
def wrapErr (m : String) : ToolResult :=
  ⟨"Error: " ++ errMessage m, true⟩

/-- The whole call-tool handler (src/src/index.ts:480-788): run the switch
under try/catch and wrap the outcome. -/
def handleCallTool (api : ApiBehavior) (name : String) (args : Args) :
    ToolResult :=
  match dispatchInner api name args with
  | .ok payload => ⟨payload, false⟩
  | .error m => wrapErr m

end Dispatch

/-!
The second, minimal `BinanceAPI` class (src/src/binance-api.ts:711-803),
embedded separately from its own source text: same credentials and
constructor, and `getPrice`, `getAccountInfo`, `placeOrder`,
`generateSignature` with the same bodies as the first class.
-/

namespace BinanceAPI2

/-- The credential fields of the second class
(src/src/binance-api.ts:717-726). -/
structure Client where
  apiKey : String
  apiSecret : String
deriving DecidableEq, Repr

/-- The headers installed by `axios.create` in the second constructor
(src/src/binance-api.ts:720-725). -/
def headersOf (c : Client) : List (String × String) :=
  [("X-MBX-APIKEY", c.apiKey)]

/-- `generateSignature` of the second class (src/src/binance-api.ts:796-802). -/
def generateSignature (apiSecret : String) (ps : Params) : String :=
  Crypto.hmacSha256Hex apiSecret (queryString ps)

/-- The signed spread `{ ...params, signature }` of the second class. -/
def withSignature (c : Client) (ps : Params) : Params :=
  ps ++ [("signature", PVal.s (generateSignature c.apiSecret ps))]

/-- Parameters of the second `getPrice` (src/src/binance-api.ts:733-742). -/
def getPriceParams (symbol : Option String) : Params :=
  optStr "symbol" symbol

/-- The one request issued by the second `getPrice`. -/
def getPriceRequests (c : Client) (symbol : Option String) : List Request :=
  [⟨.get, "/api/v3/ticker/price", headersOf c, getPriceParams symbol⟩]

/-- Signed parameters of the second `getAccountInfo`
(src/src/binance-api.ts:748-763). -/
def getAccountInfoParams (ts : Int) : Params :=
  [("timestamp", PVal.n ts)]

/-- The one request issued by the second `getAccountInfo`. -/
def getAccountInfoRequests (c : Client) (ts : Int) : List Request :=
  [⟨.get, "/api/v3/account", headersOf c,
    withSignature c (getAccountInfoParams ts)⟩]

/-- Signed parameters of the second `placeOrder`
(src/src/binance-api.ts:770-789): `{ ...orderParams, timestamp }`. -/
def placeOrderParams (input : Params) (ts : Int) : Params :=
  input ++ [("timestamp", PVal.n ts)]

/-- The one request issued by the second `placeOrder` (a POST). -/
def placeOrderRequests (c : Client) (input : Params) (ts : Int) :
    List Request :=
  [⟨.post, "/api/v3/order", headersOf c,
    withSignature c (placeOrderParams input ts)⟩]

end BinanceAPI2

/-!
Digest facts used by the hyperproperty claims: a SHA-256 digest is 32 bytes,
each below 256, so the space of possible HMAC digests is finite while the
space of parameter values is infinite.
-/

namespace Crypto

lemma wordBytesBE_lt (w : Nat) : ∀ b ∈ wordBytesBE w, b < 256 := by
  intro b hb
  simp only [wordBytesBE, List.mem_cons, List.not_mem_nil, or_false] at hb
  rcases hb with rfl | rfl | rfl | rfl <;> exact Nat.mod_lt _ (by norm_num)

lemma sha256_length (msg : List Nat) : (sha256 msg).length = 32 := by
  simp [sha256, digestBytes, wordBytesBE]

lemma sha256_lt (msg : List Nat) : ∀ b ∈ sha256 msg, b < 256 := by
  intro b hb
  simp only [sha256, digestBytes, List.mem_append] at hb
  rcases hb with ((((((hx | hx) | hx) | hx) | hx) | hx) | hx) | hx <;>
    exact wordBytesBE_lt _ _ hx

lemma hmacSha256_length (key msg : List Nat) :
    (hmacSha256 key msg).length = 32 :=
  sha256_length _

lemma hmacSha256_lt (key msg : List Nat) :
    ∀ b ∈ hmacSha256 key msg, b < 256 :=
  sha256_lt _

/-- Little-endian numeric reading of a byte list, used only to count the
possible digests. -/
def natOfBytes : List Nat → Nat
  | [] => 0
  | b :: rest => b + 256 * natOfBytes rest

lemma natOfBytes_lt :
    ∀ l : List Nat, (∀ b ∈ l, b < 256) → natOfBytes l < 256 ^ l.length := by
  intro l
  induction l with
  | nil => intro _; simp [natOfBytes]
  | cons b rest ih =>
    intro h
    have hb : b < 256 := h b (by simp)
    have hr := ih fun x hx => h x (by simp [hx])
    simp only [natOfBytes, List.length_cons, pow_succ]
    calc b + 256 * natOfBytes rest
        < 256 * (natOfBytes rest + 1) := by omega
      _ ≤ 256 * 256 ^ rest.length := by
          exact Nat.mul_le_mul_left _ hr
      _ = 256 ^ rest.length * 256 := by ring

lemma natOfBytes_inj :
    ∀ l1 l2 : List Nat, l1.length = l2.length →
      (∀ b ∈ l1, b < 256) → (∀ b ∈ l2, b < 256) →
      natOfBytes l1 = natOfBytes l2 → l1 = l2 := by
  intro l1
  induction l1 with
  | nil =>
    intro l2 hlen _ _ _
    cases l2 with
    | nil => rfl
    | cons c r => simp at hlen
  | cons b rest ih =>
    intro l2 hlen h1 h2 heq
    cases l2 with
    | nil => simp at hlen
    | cons c rest2 =>
      have hb : b < 256 := h1 b (by simp)
      have hc : c < 256 := h2 c (by simp)
      simp only [natOfBytes] at heq
      have hhead : b = c := by omega
      have htail : natOfBytes rest = natOfBytes rest2 := by omega
      have hlen2 : rest.length = rest2.length := by simpa using hlen
      rw [hhead,
        ih rest2 hlen2 (fun x hx => h1 x (by simp [hx]))
          (fun x hx => h2 x (by simp [hx])) htail]

end Crypto

/-- The HMAC digest of the one-parameter mapping `a = v` under the secret key
"k", read as an element of the finite set of 32-byte values. -/
def digestFin (v : String) : Fin (256 ^ 32) :=
  ⟨Crypto.natOfBytes
      (Crypto.hmacSha256 (Crypto.strBytes "k")
        (Crypto.strBytes (queryString [("a", PVal.s v)]))),
   by
     have h := Crypto.natOfBytes_lt
       (Crypto.hmacSha256 (Crypto.strBytes "k")
         (Crypto.strBytes (queryString [("a", PVal.s v)])))
       (Crypto.hmacSha256_lt _ _)
     rwa [Crypto.hmacSha256_length] at h⟩

namespace SpecView

/-- Modelled from the spec: the signed-parameter ordering that claim C1
attributes to `getAllOrders` — caller-supplied keys first in the order they
were added (`symbol`, then the provided optional keys), followed by the
injected `timestamp`.  The code under src is the authority; this definition
follows the words of the spec for comparison with the code ordering. -/
def getAllOrdersSignedParams (symbol : String)
    (orderId startTime endTime limit : Option Int) (ts : Int) : Params :=
  [("symbol", PVal.s symbol)] ++ optNum "orderId" orderId ++
    optNum "startTime" startTime ++ optNum "endTime" endTime ++
    optNum "limit" limit ++ [("timestamp", PVal.n ts)]

end SpecView

/-!
Key-absence helpers for the sparse-parameter claims.
-/

lemma keysOf_append (a b : Params) : keysOf (a ++ b) = keysOf a ++ keysOf b :=
  List.map_append _ a b

lemma mem_keysOf_optNum {s k : String} {v : Option Int}
    (h : s ∈ keysOf (optNum k v)) : s = k := by
  cases v with
  | none => simp [optNum, keysOf] at h
  | some n =>
    by_cases hn : n = 0 <;> simp [optNum, hn, keysOf] at h
    exact h

lemma mem_keysOf_optStr {s k : String} {v : Option String}
    (h : s ∈ keysOf (optStr k v)) : s = k := by
  cases v with
  | none => simp [optStr, keysOf] at h
  | some t =>
    by_cases ht : t = "" <;> simp [optStr, ht, keysOf] at h
    exact h

lemma mem_keysOf_optNumDefined {s k : String} {v : Option Int}
    (h : s ∈ keysOf (optNumDefined k v)) : s = k := by
  cases v with
  | none => simp [optNumDefined, keysOf] at h
  | some n => simpa [optNumDefined, keysOf] using h

/-- A constant client behaviour in which every method succeeds. -/
def constApi : Dispatch.ApiBehavior :=
  ⟨fun _ => .ok "{}", fun _ => .ok "{}", fun _ => .ok "{}", fun _ => .ok "{}",
   fun _ => .ok "{}", fun _ => .ok "{}", fun _ => .ok "{}", fun _ => .ok "{}",
   fun _ => .ok "{}", fun _ => .ok "{}", fun _ => .ok "{}", fun _ => .ok "{}",
   fun _ => .ok "{}", fun _ => .ok "{}", fun _ => .ok "{}", fun _ => .ok "{}",
   fun _ => .ok "{}"⟩

/-- A client behaviour in which every method throws with message "boom". -/
def errApi : Dispatch.ApiBehavior :=
  ⟨fun _ => .error "boom", fun _ => .error "boom", fun _ => .error "boom",
   fun _ => .error "boom", fun _ => .error "boom", fun _ => .error "boom",
   fun _ => .error "boom", fun _ => .error "boom", fun _ => .error "boom",
   fun _ => .error "boom", fun _ => .error "boom", fun _ => .error "boom",
   fun _ => .error "boom", fun _ => .error "boom", fun _ => .error "boom",
   fun _ => .error "boom", fun _ => .error "boom"⟩

/-- The message of a thrown unknown-tool error is never the empty string. -/
lemma unknown_msg_ne_empty (name : String) : "Unknown tool: " ++ name ≠ "" := by
  intro e
  have h := congrArg String.length e
  simp [String.length_append] at h
  exact absurd h.1 (by decide)

/-- The positional kline array of the specification test vector. -/
def kexample : List JVal :=
  [.num 1619712000000, .str "50050.00", .str "50100.00", .str "50000.00",
   .str "50080.00", .str "100.5", .num 1619715600000, .str "5030000.00",
   .num 1000, .str "60.5", .str "3030000.00"]

/-- C1.  Counterexample: the claim says the signature is the HMAC of the
string whose key order is caller-supplied keys first, then `timestamp`.  For
`getAllOrders` with an `orderId`, the code in fact inserts `timestamp` before
`orderId` (object literal `{ symbol, timestamp }` at line 405, conditional
inserts at lines 407-410), and the signature it sends is the HMAC of that
string, which differs from the HMAC of the spec-ordered string at this
concrete input. -/
theorem C1_counterexample :
    (BinanceAPI.getAllOrdersRequests ⟨"ak", "k"⟩ "B" (some 1) none none none 1).map
        (fun r => List.lookup "signature" r.params) =
      [some (PVal.s (BinanceAPI.generateSignature "k"
        (BinanceAPI.getAllOrdersParams "B" (some 1) none none none 1)))] ∧
    queryString (BinanceAPI.getAllOrdersParams "B" (some 1) none none none 1) =
      "symbol=B&timestamp=1&orderId=1" ∧
    queryString (SpecView.getAllOrdersSignedParams "B" (some 1) none none none 1) =
      "symbol=B&orderId=1&timestamp=1" ∧
    BinanceAPI.generateSignature "k"
        (BinanceAPI.getAllOrdersParams "B" (some 1) none none none 1) ≠
      Crypto.hmacSha256Hex "k"
        (queryString (SpecView.getAllOrdersSignedParams "B" (some 1) none none none 1)) := by
  refine ⟨rfl, rfl, rfl, ?_⟩
  decide

/-- C1 (amended).  For every parameter mapping assembled by a signed client
method, the signature sent equals the lowercase hexadecimal HMAC-SHA-256,
keyed by the secret key, of the `key=value` pairs joined by `&` in the
mapping's insertion order — where the insertion order is the one the method
constructs: methods that spread a caller mapping put caller keys first and
`timestamp` last, while `getOpenOrders`, `getAllOrders`, `getOrder`,
`getDepositHistory` and `getWithdrawHistory` place `timestamp` in the initial
object literal, so the conditionally added caller keys follow it. -/
theorem C1_theorem :
    (∀ (c : BinanceAPI.Client) (ps : Params),
      BinanceAPI.withSignature c ps =
        ps ++ [("signature", PVal.s
          (Crypto.bytesHex (Crypto.hmacSha256 (Crypto.strBytes c.apiSecret)
            (Crypto.strBytes (String.intercalate "&"
              (ps.map fun p => p.1 ++ "=" ++ p.2.render))))))]) ∧
    (∀ (c : BinanceAPI.Client) (ts : Int),
      (BinanceAPI.getAccountInfoRequests c ts).map Request.params =
        [BinanceAPI.withSignature c [("timestamp", PVal.n ts)]]) ∧
    (∀ (c : BinanceAPI.Client) (input : Params) (ts : Int),
      (BinanceAPI.getMyTradesRequests c input ts).map Request.params =
        [BinanceAPI.withSignature c (input ++ [("timestamp", PVal.n ts)])]) ∧
    (∀ (c : BinanceAPI.Client) (sym : Option String) (ts : Int),
      (BinanceAPI.getOpenOrdersRequests c sym ts).map Request.params =
        [BinanceAPI.withSignature c
          ([("timestamp", PVal.n ts)] ++ optStr "symbol" sym)]) ∧
    (∀ (c : BinanceAPI.Client) (s : String)
        (oid st et lim : Option Int) (ts : Int),
      (BinanceAPI.getAllOrdersRequests c s oid st et lim ts).map Request.params =
        [BinanceAPI.withSignature c
          ([("symbol", PVal.s s), ("timestamp", PVal.n ts)] ++
            optNum "orderId" oid ++ optNum "startTime" st ++
            optNum "endTime" et ++ optNum "limit" lim)]) ∧
    (∀ (c : BinanceAPI.Client) (input : Params) (ts : Int),
      (BinanceAPI.placeOrderRequests c input ts).map Request.params =
        [BinanceAPI.withSignature c (input ++ [("timestamp", PVal.n ts)])]) ∧
    (∀ (c : BinanceAPI.Client) (input : Params) (ts : Int),
      (BinanceAPI.cancelOrderRequests c input ts).map Request.params =
        [BinanceAPI.withSignature c (input ++ [("timestamp", PVal.n ts)])]) ∧
    (∀ (c : BinanceAPI.Client) (s : String) (ts : Int),
      (BinanceAPI.cancelAllOrdersRequests c s ts).map Request.params =
        [BinanceAPI.withSignature c
          [("symbol", PVal.s s), ("timestamp", PVal.n ts)]]) ∧
    (∀ (c : BinanceAPI.Client) (s : String) (oid : Option Int)
        (cid : Option String) (ts : Int),
      (BinanceAPI.getOrderRequests c s oid cid ts).map Request.params =
        [BinanceAPI.withSignature c
          ([("symbol", PVal.s s), ("timestamp", PVal.n ts)] ++
            optNum "orderId" oid ++ optStr "clientOrderId" cid)]) ∧
    (∀ (c : BinanceAPI.Client) (input : Params) (ts : Int),
      (BinanceAPI.getDepositAddressRequests c input ts).map Request.params =
        [BinanceAPI.withSignature c (input ++ [("timestamp", PVal.n ts)])]) ∧
    (∀ (c : BinanceAPI.Client) (coin : Option String) (status : Option Int)
        (st et off lim : Option Int) (ts : Int),
      (BinanceAPI.getDepositHistoryRequests c coin status st et off lim ts).map
          Request.params =
        [BinanceAPI.withSignature c
          ([("timestamp", PVal.n ts)] ++ optStr "coin" coin ++
            optNumDefined "status" status ++ optNum "startTime" st ++
            optNum "endTime" et ++ optNum "offset" off ++ optNum "limit" lim)]) ∧
    (∀ (c : BinanceAPI.Client) (coin : Option String) (status : Option Int)
        (st et off lim : Option Int) (ts : Int),
      (BinanceAPI.getWithdrawHistoryRequests c coin status st et off lim ts).map
          Request.params =
        [BinanceAPI.withSignature c
          ([("timestamp", PVal.n ts)] ++ optStr "coin" coin ++
            optNumDefined "status" status ++ optNum "startTime" st ++
            optNum "endTime" et ++ optNum "offset" off ++ optNum "limit" lim)]) ∧
    (∀ (c : BinanceAPI.Client) (input : Params) (ts : Int),
      (BinanceAPI.withdrawRequests c input ts).map Request.params =
        [BinanceAPI.withSignature c (input ++ [("timestamp", PVal.n ts)])]) := by
  refine ⟨?_, ?_, ?_, ?_, ?_, ?_, ?_, ?_, ?_, ?_, ?_, ?_, ?_⟩ <;> intros <;> rfl

set_option maxHeartbeats 2000000 in
/-- C2.  Counterexample to the universal change-sensitivity part: digests live
in a finite space (32 bytes) while parameter values range over an infinite
space, so for some mapping, changing one parameter value leaves the digest
unchanged; the claim that any single value change always changes the digest
is therefore false, and the existence proof is exhibited through the
pigeonhole principle. -/
theorem C2_counterexample :
    ¬ (∀ (pre post : Params) (key k : String) (v v' : PVal), v ≠ v' →
        BinanceAPI.generateSignature k (pre ++ (key, v) :: post) ≠
          BinanceAPI.generateSignature k (pre ++ (key, v') :: post)) := by
  intro hclaim
  obtain ⟨v1, v2, hne, heq⟩ := Finite.exists_ne_map_eq_of_infinite digestFin
  simp only [digestFin, Fin.mk.injEq] at heq
  have hbytes :
      Crypto.hmacSha256 (Crypto.strBytes "k")
        (Crypto.strBytes (queryString [("a", PVal.s v1)])) =
      Crypto.hmacSha256 (Crypto.strBytes "k")
        (Crypto.strBytes (queryString [("a", PVal.s v2)])) := by
    apply Crypto.natOfBytes_inj _ _
      (by rw [Crypto.hmacSha256_length, Crypto.hmacSha256_length])
      (Crypto.hmacSha256_lt _ _) (Crypto.hmacSha256_lt _ _) heq
  have hsig : BinanceAPI.generateSignature "k" [("a", PVal.s v1)] =
      BinanceAPI.generateSignature "k" [("a", PVal.s v2)] := by
    unfold BinanceAPI.generateSignature Crypto.hmacSha256Hex
    exact congrArg Crypto.bytesHex hbytes
  exact hclaim [] [] "a" "k" (PVal.s v1) (PVal.s v2)
    (by simpa using hne) hsig

set_option maxHeartbeats 2000000 in
/-- C2 (amended).  Signature computation is deterministic — equal parameter
mappings (same keys, values and insertion order) under equal secret keys give
equal digests — and on concrete distinguishing inputs, changing a parameter
value changes the digest and changing the secret key changes the digest;
universally quantified change-sensitivity cannot hold because digest
collisions exist. -/
theorem C2_theorem :
    (∀ (ps1 ps2 : Params) (k1 k2 : String), ps1 = ps2 → k1 = k2 →
      BinanceAPI.generateSignature k1 ps1 = BinanceAPI.generateSignature k2 ps2) ∧
    BinanceAPI.generateSignature "key1"
        [("symbol", PVal.s "BTCUSDT"), ("timestamp", PVal.n 1000)] ≠
      BinanceAPI.generateSignature "key1"
        [("symbol", PVal.s "ETHUSDT"), ("timestamp", PVal.n 1000)] ∧
    BinanceAPI.generateSignature "key1"
        [("symbol", PVal.s "BTCUSDT"), ("timestamp", PVal.n 1000)] ≠
      BinanceAPI.generateSignature "key2"
        [("symbol", PVal.s "BTCUSDT"), ("timestamp", PVal.n 1000)] := by
  refine ⟨?_, by decide, by decide⟩
  intro ps1 ps2 k1 k2 h1 h2
  rw [h1, h2]

/-- C2 witness: the determinism part applied at a concrete mapping and key. -/
theorem C2_witness :
    BinanceAPI.generateSignature "k" [("a", PVal.s "b")] =
      BinanceAPI.generateSignature "k" [("a", PVal.s "b")] :=
  C2_theorem.1 [("a", PVal.s "b")] [("a", PVal.s "b")] "k" "k" rfl rfl

/-- C3.  For every call-tool invocation: an unknown name yields an
error-flagged result whose message contains the literal unknown name; every
error raised by a client method yields an error-flagged result with a textual
message; and in every case the handler returns an ordinary result, so no
exception propagates to the transport. -/
theorem C3_theorem :
    (∀ (api : Dispatch.ApiBehavior) (name : String) (args : Dispatch.Args),
      name ∉ Dispatch.toolNames →
        Dispatch.handleCallTool api name args =
          ⟨"Error: " ++ ("Unknown tool: " ++ name), true⟩ ∧
        ∃ pre post : String,
          "Error: " ++ ("Unknown tool: " ++ name) = pre ++ name ++ post) ∧
    (∀ (api : Dispatch.ApiBehavior) (name : String) (args : Dispatch.Args)
        (m : String),
      Dispatch.dispatchInner api name args = .error m →
        Dispatch.handleCallTool api name args =
          ⟨"Error: " ++ Dispatch.errMessage m, true⟩) ∧
    (∀ (api : Dispatch.ApiBehavior) (name : String) (args : Dispatch.Args),
      (∃ s, Dispatch.handleCallTool api name args = ⟨s, false⟩ ∧
        Dispatch.dispatchInner api name args = .ok s) ∨
      (∃ m, Dispatch.handleCallTool api name args =
        ⟨"Error: " ++ Dispatch.errMessage m, true⟩)) := by
  refine ⟨?_, ?_, ?_⟩
  · intro api name args h
    simp only [Dispatch.toolNames, List.mem_cons, List.not_mem_nil, or_false,
      not_or] at h
    obtain ⟨h1, h2, h3, h4, h5, h6, h7, h8, h9, h10, h11, h12, h13, h14, h15,
      h16, h17⟩ := h
    constructor
    · simp only [Dispatch.handleCallTool, Dispatch.dispatchInner, Dispatch.wrapErr,
        Dispatch.errMessage, h1, h2, h3, h4, h5, h6, h7, h8, h9, h10, h11, h12,
        h13, h14, h15, h16, h17, if_false, if_neg (unknown_msg_ne_empty name)]
    · refine ⟨"Error: Unknown tool: ", "", ?_⟩
      rw [String.append_empty, ← String.append_assoc]
      rfl
  · intro api name args m h
    simp [Dispatch.handleCallTool, Dispatch.wrapErr, h]
  · intro api name args
    cases heq : Dispatch.dispatchInner api name args with
    | ok s =>
      exact Or.inl ⟨s, by simp [Dispatch.handleCallTool, heq], rfl⟩
    | error m =>
      exact Or.inr ⟨m, by simp [Dispatch.handleCallTool, Dispatch.wrapErr, heq]⟩

/-- C3 witness: the unknown-tool branch at the concrete name "bogus" and the
client-error branch at the concrete tool "get_klines" on a behaviour whose
methods all throw "boom". -/
theorem C3_witness :
    ("bogus" ∉ Dispatch.toolNames ∧
      Dispatch.handleCallTool constApi "bogus" [] =
        ⟨"Error: " ++ ("Unknown tool: " ++ "bogus"), true⟩) ∧
    (Dispatch.dispatchInner errApi "get_klines" [] = .error "boom" ∧
      Dispatch.handleCallTool errApi "get_klines" [] =
        ⟨"Error: " ++ Dispatch.errMessage "boom", true⟩) :=
  ⟨⟨by decide, (C3_theorem.1 constApi "bogus" [] (by decide)).1⟩,
   ⟨rfl, C3_theorem.2.1 errApi "get_klines" [] "boom" rfl⟩⟩

/-- C4.  Optional parameters omitted by the caller are absent from the
request parameter mapping: with `limit` (resp. `startTime`, `endTime`)
omitted, `getKlines` builds a mapping containing no such key; with all six
options omitted, `getDepositHistory` signs and sends only the timestamp. -/
theorem C4_theorem :
    (∀ (s i : String) (st et : Option Int),
      BinanceAPI.getKlinesParams s i none st et =
        [("symbol", PVal.s s), ("interval", PVal.s i)] ++
          optNum "startTime" st ++ optNum "endTime" et) ∧
    (∀ (s i : String) (l et : Option Int),
      BinanceAPI.getKlinesParams s i l none et =
        [("symbol", PVal.s s), ("interval", PVal.s i)] ++
          optNum "limit" l ++ optNum "endTime" et) ∧
    (∀ (s i : String) (l st : Option Int),
      BinanceAPI.getKlinesParams s i l st none =
        [("symbol", PVal.s s), ("interval", PVal.s i)] ++
          optNum "limit" l ++ optNum "startTime" st) ∧
    (∀ s i : String,
      keysOf (BinanceAPI.getKlinesParams s i none none none) =
        ["symbol", "interval"]) ∧
    (∀ (status : Option Int) (st et off lim : Option Int) (ts : Int),
      BinanceAPI.getDepositHistoryParams none status st et off lim ts =
        [("timestamp", PVal.n ts)] ++ optNumDefined "status" status ++
          optNum "startTime" st ++ optNum "endTime" et ++
          optNum "offset" off ++ optNum "limit" lim) ∧
    (∀ ts : Int,
      BinanceAPI.getDepositHistoryParams none none none none none none ts =
        [("timestamp", PVal.n ts)]) ∧
    (∀ (c : BinanceAPI.Client) (ts : Int),
      (BinanceAPI.getDepositHistoryRequests c none none none none none none ts).map
          Request.params =
        [BinanceAPI.withSignature c [("timestamp", PVal.n ts)]]) := by
  refine ⟨?_, ?_, ?_, ?_, ?_, ?_, ?_⟩ <;> intros <;>
    first
      | rfl
      | simp [BinanceAPI.getKlinesParams, BinanceAPI.getDepositHistoryParams,
          optNum, optNumDefined, keysOf]

/-- C5.  `getKlines` maps each positional kline array to the named record
taken from positions 0 through 10, preserving order and length, and the
specification test vector yields exactly the expected named record. -/
theorem C5_theorem :
    (∀ resp : List (List JVal),
      (BinanceAPI.getKlinesResult resp).length = resp.length) ∧
    (∀ (resp : List (List JVal)) (i : Nat) (k : List JVal),
      resp[i]? = some k →
        (BinanceAPI.getKlinesResult resp)[i]? = some
          ⟨jIdx k 0, jIdx k 1, jIdx k 2, jIdx k 3, jIdx k 4, jIdx k 5,
           jIdx k 6, jIdx k 7, jIdx k 8, jIdx k 9, jIdx k 10⟩) ∧
    BinanceAPI.transformKline kexample =
      ⟨.num 1619712000000, .str "50050.00", .str "50100.00", .str "50000.00",
       .str "50080.00", .str "100.5", .num 1619715600000, .str "5030000.00",
       .num 1000, .str "60.5", .str "3030000.00"⟩ := by
  refine ⟨?_, ?_, rfl⟩
  · intro resp
    simp [BinanceAPI.getKlinesResult]
  · intro resp i k h
    simp [BinanceAPI.getKlinesResult, List.getElem?_map, h,
      BinanceAPI.transformKline]

/-- C5 witness: the positional-to-named mapping applied to the singleton
response holding the specification test vector. -/
theorem C5_witness :
    (BinanceAPI.getKlinesResult [kexample])[0]? = some
      ⟨jIdx kexample 0, jIdx kexample 1, jIdx kexample 2, jIdx kexample 3,
       jIdx kexample 4, jIdx kexample 5, jIdx kexample 6, jIdx kexample 7,
       jIdx kexample 8, jIdx kexample 9, jIdx kexample 10⟩ :=
  C5_theorem.2.1 [kexample] 0 kexample rfl

/-- C6.  `getOrderBook` passes `lastUpdateId` through unchanged and maps each
bid and ask pair `[price, quantity]` to the record `{price, quantity}` in
order, and the specification test vector reshapes as stated. -/
theorem C6_theorem :
    (∀ r : BinanceAPI.OrderBookRaw,
      (BinanceAPI.transformOrderBook r).lastUpdateId = r.lastUpdateId ∧
      (BinanceAPI.transformOrderBook r).bids.length = r.bids.length ∧
      (BinanceAPI.transformOrderBook r).asks.length = r.asks.length) ∧
    (∀ (r : BinanceAPI.OrderBookRaw) (i : Nat) (p q : String),
      r.bids[i]? = some [p, q] →
        (BinanceAPI.transformOrderBook r).bids[i]? = some ⟨some p, some q⟩) ∧
    (∀ (r : BinanceAPI.OrderBookRaw) (i : Nat) (p q : String),
      r.asks[i]? = some [p, q] →
        (BinanceAPI.transformOrderBook r).asks[i]? = some ⟨some p, some q⟩) ∧
    BinanceAPI.transformOrderBook
        ⟨7, [["50145.00", "2.5"]], [["50146.00", "1.0"]]⟩ =
      ⟨7, [⟨some "50145.00", some "2.5"⟩], [⟨some "50146.00", some "1.0"⟩]⟩ := by
  refine ⟨?_, ?_, ?_, rfl⟩
  · intro r
    exact ⟨rfl, by simp [BinanceAPI.transformOrderBook],
      by simp [BinanceAPI.transformOrderBook]⟩
  · intro r i p q h
    simp [BinanceAPI.transformOrderBook, List.getElem?_map, h,
      BinanceAPI.transformLevel]
  · intro r i p q h
    simp [BinanceAPI.transformOrderBook, List.getElem?_map, h,
      BinanceAPI.transformLevel]

/-- C6 witness: the bid reshaping applied at the specification test vector. -/
theorem C6_witness :
    (BinanceAPI.transformOrderBook
        ⟨7, [["50145.00", "2.5"]], [["50146.00", "1.0"]]⟩).bids[0]? =
      some ⟨some "50145.00", some "2.5"⟩ :=
  C6_theorem.2.1 ⟨7, [["50145.00", "2.5"]], [["50146.00", "1.0"]]⟩ 0
    "50145.00" "2.5" rfl

/-- C7.  Startup fails with the fatal configuration error whenever either
environment credential is unset or empty, producing no client and no request;
with both non-empty it succeeds, constructing the client from the two values
and issuing no startup request. -/
theorem C7_theorem :
    (∀ s, Startup.startServer none s = .error
      "BINANCE_API_KEY and BINANCE_API_SECRET environment variables are required") ∧
    (∀ k, Startup.startServer k none = .error
      "BINANCE_API_KEY and BINANCE_API_SECRET environment variables are required") ∧
    (∀ s, Startup.startServer (some "") s = .error
      "BINANCE_API_KEY and BINANCE_API_SECRET environment variables are required") ∧
    (∀ k, Startup.startServer k (some "") = .error
      "BINANCE_API_KEY and BINANCE_API_SECRET environment variables are required") ∧
    (∀ ak sk : String, ak ≠ "" → sk ≠ "" →
      Startup.startServer (some ak) (some sk) = .ok ⟨⟨ak, sk⟩, []⟩) := by
  refine ⟨fun s => rfl, ?_, fun s => rfl, ?_, ?_⟩
  · intro k
    rcases k with _ | kv <;> simp [Startup.startServer, Startup.envFalsy]
  · intro k
    rcases k with _ | kv <;> simp [Startup.startServer, Startup.envFalsy]
  · intro ak sk h1 h2
    simp [Startup.startServer, Startup.envFalsy, h1, h2]

/-- C7 witness: successful startup at concrete non-empty credentials. -/
theorem C7_witness :
    Startup.startServer (some "AK") (some "SK") = .ok ⟨⟨"AK", "SK"⟩, []⟩ :=
  C7_theorem.2.2.2.2 "AK" "SK" (by decide) (by decide)

/-- C8.  Every client method issues exactly one request (the singleton lists
below); every request carries the identity key in the single fixed header of
the exhibited request constructors `G` and `F`; and the secret key reaches a
request only through `generateSignature` — each signed method's request is
`F` applied to the identity key, verb, path, pre-signature mapping, and the
digest, while the public methods' requests are `G` applied to data that does
not involve the secret at all. -/
theorem C8_theorem :
    ∃ (G : String → HttpMethod → String → Params → Request)
      (F : String → HttpMethod → String → Params → String → Request),
      (∀ ak verb path ps, (G ak verb path ps).headers = [("X-MBX-APIKEY", ak)]) ∧
      (∀ ak verb path ps sig,
        (F ak verb path ps sig).headers = [("X-MBX-APIKEY", ak)]) ∧
      (∀ (c : BinanceAPI.Client) (symbol : Option String),
        BinanceAPI.getPriceRequests c symbol =
          [G c.apiKey .get "/api/v3/ticker/price"
            (BinanceAPI.getPriceParams symbol)]) ∧
      (∀ (c : BinanceAPI.Client) (symbol : Option String),
        BinanceAPI.get24hrTickerRequests c symbol =
          [G c.apiKey .get "/api/v3/ticker/24hr"
            (BinanceAPI.get24hrTickerParams symbol)]) ∧
      (∀ (c : BinanceAPI.Client) (s i : String) (l st et : Option Int),
        BinanceAPI.getKlinesRequests c s i l st et =
          [G c.apiKey .get "/api/v3/klines"
            (BinanceAPI.getKlinesParams s i l st et)]) ∧
      (∀ (c : BinanceAPI.Client) (s : String) (l : Option Int),
        BinanceAPI.getOrderBookRequests c s l =
          [G c.apiKey .get "/api/v3/depth" (BinanceAPI.getOrderBookParams s l)]) ∧
      (∀ (c : BinanceAPI.Client) (s : String) (l : Option Int),
        BinanceAPI.getRecentTradesRequests c s l =
          [G c.apiKey .get "/api/v3/trades"
            (BinanceAPI.getRecentTradesParams s l)]) ∧
      (∀ (c : BinanceAPI.Client) (ts : Int),
        BinanceAPI.getAccountInfoRequests c ts =
          [F c.apiKey .get "/api/v3/account" (BinanceAPI.getAccountInfoParams ts)
            (BinanceAPI.generateSignature c.apiSecret
              (BinanceAPI.getAccountInfoParams ts))]) ∧
      (∀ (c : BinanceAPI.Client) (input : Params) (ts : Int),
        BinanceAPI.getMyTradesRequests c input ts =
          [F c.apiKey .get "/api/v3/myTrades"
            (BinanceAPI.getMyTradesParams input ts)
            (BinanceAPI.generateSignature c.apiSecret
              (BinanceAPI.getMyTradesParams input ts))]) ∧
      (∀ (c : BinanceAPI.Client) (sym : Option String) (ts : Int),
        BinanceAPI.getOpenOrdersRequests c sym ts =
          [F c.apiKey .get "/api/v3/openOrders"
            (BinanceAPI.getOpenOrdersParams sym ts)
            (BinanceAPI.generateSignature c.apiSecret
              (BinanceAPI.getOpenOrdersParams sym ts))]) ∧
      (∀ (c : BinanceAPI.Client) (s : String) (oid st et lim : Option Int)
          (ts : Int),
        BinanceAPI.getAllOrdersRequests c s oid st et lim ts =
          [F c.apiKey .get "/api/v3/allOrders"
            (BinanceAPI.getAllOrdersParams s oid st et lim ts)
            (BinanceAPI.generateSignature c.apiSecret
              (BinanceAPI.getAllOrdersParams s oid st et lim ts))]) ∧
      (∀ (c : BinanceAPI.Client) (input : Params) (ts : Int),
        BinanceAPI.placeOrderRequests c input ts =
          [F c.apiKey .post "/api/v3/order"
            (BinanceAPI.placeOrderParams input ts)
            (BinanceAPI.generateSignature c.apiSecret
              (BinanceAPI.placeOrderParams input ts))]) ∧
      (∀ (c : BinanceAPI.Client) (input : Params) (ts : Int),
        BinanceAPI.cancelOrderRequests c input ts =
          [F c.apiKey .delete "/api/v3/order"
            (BinanceAPI.cancelOrderParams input ts)
            (BinanceAPI.generateSignature c.apiSecret
              (BinanceAPI.cancelOrderParams input ts))]) ∧
      (∀ (c : BinanceAPI.Client) (s : String) (ts : Int),
        BinanceAPI.cancelAllOrdersRequests c s ts =
          [F c.apiKey .delete "/api/v3/openOrders"
            (BinanceAPI.cancelAllOrdersParams s ts)
            (BinanceAPI.generateSignature c.apiSecret
              (BinanceAPI.cancelAllOrdersParams s ts))]) ∧
      (∀ (c : BinanceAPI.Client) (s : String) (oid : Option Int)
          (cid : Option String) (ts : Int),
        BinanceAPI.getOrderRequests c s oid cid ts =
          [F c.apiKey .get "/api/v3/order"
            (BinanceAPI.getOrderParams s oid cid ts)
            (BinanceAPI.generateSignature c.apiSecret
              (BinanceAPI.getOrderParams s oid cid ts))]) ∧
      (∀ (c : BinanceAPI.Client) (input : Params) (ts : Int),
        BinanceAPI.getDepositAddressRequests c input ts =
          [F c.apiKey .get "/sapi/v1/capital/deposit/address"
            (BinanceAPI.getDepositAddressParams input ts)
            (BinanceAPI.generateSignature c.apiSecret
              (BinanceAPI.getDepositAddressParams input ts))]) ∧
      (∀ (c : BinanceAPI.Client) (coin : Option String)
          (status st et off lim : Option Int) (ts : Int),
        BinanceAPI.getDepositHistoryRequests c coin status st et off lim ts =
          [F c.apiKey .get "/sapi/v1/capital/deposit/hisrec"
            (BinanceAPI.getDepositHistoryParams coin status st et off lim ts)
            (BinanceAPI.generateSignature c.apiSecret
              (BinanceAPI.getDepositHistoryParams coin status st et off lim ts))]) ∧
      (∀ (c : BinanceAPI.Client) (coin : Option String)
          (status st et off lim : Option Int) (ts : Int),
        BinanceAPI.getWithdrawHistoryRequests c coin status st et off lim ts =
          [F c.apiKey .get "/sapi/v1/capital/withdraw/history"
            (BinanceAPI.getWithdrawHistoryParams coin status st et off lim ts)
            (BinanceAPI.generateSignature c.apiSecret
              (BinanceAPI.getWithdrawHistoryParams coin status st et off lim ts))]) ∧
      (∀ (c : BinanceAPI.Client) (input : Params) (ts : Int),
        BinanceAPI.withdrawRequests c input ts =
          [F c.apiKey .post "/sapi/v1/capital/withdraw/apply"
            (BinanceAPI.withdrawParams input ts)
            (BinanceAPI.generateSignature c.apiSecret
              (BinanceAPI.withdrawParams input ts))]) := by
  refine ⟨fun ak verb path ps => ⟨verb, path, [("X-MBX-APIKEY", ak)], ps⟩,
    fun ak verb path ps sig =>
      ⟨verb, path, [("X-MBX-APIKEY", ak)], ps ++ [("signature", PVal.s sig)]⟩,
    ?_, ?_, ?_, ?_, ?_, ?_, ?_, ?_, ?_, ?_, ?_, ?_, ?_, ?_, ?_, ?_, ?_, ?_,
    ?_⟩ <;> intros <;> rfl

/-- C9.  A caller-provided optional value of 0 (or an empty optional string)
is treated as absent by the truthiness checks of the listed methods, while
`status` in the history methods is included whenever it is defined, so
status = 0 is sent. -/
theorem C9_theorem :
    (∀ (s i : String) (st et : Option Int),
      BinanceAPI.getKlinesParams s i (some 0) st et =
        BinanceAPI.getKlinesParams s i none st et) ∧
    (∀ s : String,
      BinanceAPI.getOrderBookParams s (some 0) =
        BinanceAPI.getOrderBookParams s none) ∧
    (∀ s : String,
      BinanceAPI.getRecentTradesParams s (some 0) =
        BinanceAPI.getRecentTradesParams s none) ∧
    (∀ (s : String) (st et lim : Option Int) (ts : Int),
      BinanceAPI.getAllOrdersParams s (some 0) st et lim ts =
        BinanceAPI.getAllOrdersParams s none st et lim ts) ∧
    (∀ (s : String) (oid st et : Option Int) (ts : Int),
      BinanceAPI.getAllOrdersParams s oid st et (some 0) ts =
        BinanceAPI.getAllOrdersParams s oid st et none ts) ∧
    (∀ (s : String) (cid : Option String) (ts : Int),
      BinanceAPI.getOrderParams s (some 0) cid ts =
        BinanceAPI.getOrderParams s none cid ts) ∧
    (∀ (s : String) (oid : Option Int) (ts : Int),
      BinanceAPI.getOrderParams s oid (some "") ts =
        BinanceAPI.getOrderParams s oid none ts) ∧
    (∀ (status st et off lim : Option Int) (ts : Int),
      BinanceAPI.getDepositHistoryParams (some "") status st et off lim ts =
        BinanceAPI.getDepositHistoryParams none status st et off lim ts) ∧
    (∀ (coin : Option String) (st et off : Option Int) (ts : Int),
      BinanceAPI.getDepositHistoryParams coin none st et off (some 0) ts =
        BinanceAPI.getDepositHistoryParams coin none st et off none ts) ∧
    (∀ (coin : Option String) (st et off lim : Option Int) (ts : Int),
      ("status", PVal.n 0) ∈
        BinanceAPI.getDepositHistoryParams coin (some 0) st et off lim ts) ∧
    (∀ (coin : Option String) (st et off lim : Option Int) (ts : Int),
      ("status", PVal.n 0) ∈
        BinanceAPI.getWithdrawHistoryParams coin (some 0) st et off lim ts) ∧
    (∀ (coin : Option String) (st et off : Option Int) (ts : Int),
      BinanceAPI.getWithdrawHistoryParams coin none st et off (some 0) ts =
        BinanceAPI.getWithdrawHistoryParams coin none st et off none ts) := by
  refine ⟨?_, ?_, ?_, ?_, ?_, ?_, ?_, ?_, ?_, ?_, ?_, ?_⟩ <;> intros <;>
    first
      | rfl
      | simp [BinanceAPI.getAllOrdersParams, BinanceAPI.getOrderParams,
          BinanceAPI.getDepositHistoryParams, BinanceAPI.getWithdrawHistoryParams,
          optNum, optStr, optNumDefined]

/-- C10.  The second, minimal `BinanceAPI` class agrees with the first on
their shared operations: `generateSignature`, `getPrice`, `getAccountInfo`
and `placeOrder` produce the same signed parameter mappings, the same
endpoints and verbs, and the same requests for every input. -/
theorem C10_theorem :
    (∀ (k : String) (ps : Params),
      BinanceAPI2.generateSignature k ps = BinanceAPI.generateSignature k ps) ∧
    (∀ (c : BinanceAPI2.Client) (symbol : Option String),
      BinanceAPI2.getPriceRequests c symbol =
        BinanceAPI.getPriceRequests ⟨c.apiKey, c.apiSecret⟩ symbol) ∧
    (∀ (c : BinanceAPI2.Client) (ts : Int),
      BinanceAPI2.getAccountInfoRequests c ts =
        BinanceAPI.getAccountInfoRequests ⟨c.apiKey, c.apiSecret⟩ ts) ∧
    (∀ (c : BinanceAPI2.Client) (input : Params) (ts : Int),
      BinanceAPI2.placeOrderRequests c input ts =
        BinanceAPI.placeOrderRequests ⟨c.apiKey, c.apiSecret⟩ input ts) := by
  refine ⟨?_, ?_, ?_, ?_⟩ <;> intros <;> rfl
